import Mathlib

/-!
Verification of the connection-authorization and downstream-token-brokering
subsystem of the openclaw repository.

Shallow embedding of:
  - the OIDC verifier (src/gateway/oidc.ts): claim extraction, domain and
    email allowlists, and the error mapping of the verification step;
  - the Azure AD token broker (azure-obo module): silent acquisition,
    on-behalf-of exchange, and the scope-keyed expiry-buffered token cache;
  - the gateway connection authorizer (modelled from the spec, since only
    its tests ship in the provided sources).

Network and cryptographic effects are represented explicitly: the outcome of
the JWT cryptographic validation is an input (`CryptoOutcome`), and the token
endpoint is an oracle from requests to responses, with the list of issued
requests returned alongside the result so that "no network call" is provable.
-/

namespace OpenClaw

/-! ## OIDC verifier (src/gateway/oidc.ts) -/

/-- A JSON claim value as far as the verifier inspects it: a string, or any
non-string value (number, object, boolean, ...), which the verifier never
looks into. -/
inductive JsonVal where
  | str (s : String)
  | nonString
deriving DecidableEq, Repr

/-- A verified JWT payload: an association list from claim names to values. -/
abbrev Payload := List (String × JsonVal)

/-- Embedding of JS `String.prototype.trim`: strip whitespace from both ends
(defined over the character list so that it evaluates by kernel reduction). -/
def jsTrim (s : String) : String :=
  String.mk (((s.data.dropWhile Char.isWhitespace).reverse.dropWhile Char.isWhitespace).reverse)

/-- Embedding of JS `String.prototype.endsWith`. -/
def jsEndsWith (s pat : String) : Bool :=
  pat.data.isSuffixOf s.data

/-- Embedding of JS `String.prototype.toLowerCase` (ASCII case mapping, which
is all the compared reason strings and emails exercise). -/
def jsToLower (s : String) : String :=
  String.mk (s.data.map Char.toLower)

/-- Lookup of a claim in a payload (first binding wins, as in a JS object). -/
def payloadGet (payload : Payload) (claim : String) : Option JsonVal :=
  match payload with
  | [] => none
  | (k, v) :: rest => if k = claim then some v else payloadGet rest claim

/-- Embedding of `OidcVerifierConfig`. `jwksUri` and the issuer/audience feed
only the abstracted cryptographic step and JWKS fetch, so they carry no
further structure here. -/
structure OidcVerifierConfig where
  issuer : String
  audience : String
  userClaim : Option String
  allowedDomains : Option (List String)
  allowedEmails : Option (List String)
deriving DecidableEq, Repr

/-- Embedding of `OidcVerifyResult`. -/
inductive OidcVerifyResult where
  | ok (user : String) (claims : Payload)
  | err (reason : String)
deriving DecidableEq, Repr

/-- Outcome of the `jwtVerify` call (signature, issuer, audience, expiry
checks against the JWKS): either a verified payload, or a thrown error whose
`code` property is the given string (empty when the thrown value has no
string `code`). -/
inductive CryptoOutcome where
  | ok (payload : Payload)
  | err (code : String)
deriving DecidableEq, Repr

/-- Embedding of `extractUserClaim`: the claim value must be a string that is
non-empty after trimming; the trimmed value is returned. -/
def extractUserClaim (payload : Payload) (claim : String) : Option String :=
  match payloadGet payload claim with
  | some (JsonVal.str v) => if jsTrim v = "" then none else some (jsTrim v)
  | _ => none

/-- Embedding of `checkDomainRestriction`: a falsy (absent or empty) email
fails; otherwise the email must end in `@domain` for some configured domain
(case-sensitive). -/
def checkDomainRestriction (email : Option String) (allowedDomains : List String) : Bool :=
  match email with
  | none => false
  | some e => if e = "" then false else allowedDomains.any (fun d => jsEndsWith e ("@" ++ d))

/-- Embedding of `checkEmailAllowlist`: a falsy (absent or empty) email
fails; otherwise the email must equal a configured entry case-insensitively. -/
def checkEmailAllowlist (email : Option String) (allowedEmails : List String) : Bool :=
  match email with
  | none => false
  | some e => if e = "" then false else allowedEmails.any (fun x => jsToLower x == jsToLower e)

/-- Embedding of `const email = typeof payload.email === "string" ? payload.email : undefined`. -/
def oidcEmailClaim (payload : Payload) : Option String :=
  match payloadGet payload "email" with
  | some (JsonVal.str s) => some s
  | _ => none

/-- Truthiness of `list?.length` in JS: present and non-empty. -/
def allowlistNonEmpty : Option (List String) → Bool
  | some (_ :: _) => true
  | _ => false

/-- Embedding of the `verify` closure built by `createOidcVerifier`: on a
thrown cryptographic error, map the error code to a tagged reason; on a
verified payload, run the user-claim, domain and email checks in order. -/
def verify (config : OidcVerifierConfig) (crypto : CryptoOutcome) : OidcVerifyResult :=
  match crypto with
  | CryptoOutcome.err code =>
    if code = "ERR_JWT_EXPIRED" then OidcVerifyResult.err "oidc_token_expired"
    else if code = "ERR_JWS_SIGNATURE_VERIFICATION_FAILED" then
      OidcVerifyResult.err "oidc_signature_invalid"
    else OidcVerifyResult.err "oidc_token_invalid"
  | CryptoOutcome.ok payload =>
    match extractUserClaim payload (config.userClaim.getD "sub") with
    | none => OidcVerifyResult.err "oidc_user_claim_missing"
    | some user =>
      let email := oidcEmailClaim payload
      if allowlistNonEmpty config.allowedDomains
          && !(checkDomainRestriction email (config.allowedDomains.getD [])) then
        OidcVerifyResult.err "oidc_domain_not_allowed"
      else if allowlistNonEmpty config.allowedEmails
          && !(checkEmailAllowlist email (config.allowedEmails.getD [])) then
        OidcVerifyResult.err "oidc_email_not_allowed"
      else OidcVerifyResult.ok user payload

/-! ## Azure AD token broker (azure-obo module) -/

/-- Embedding of `AZURE_AD_CONFIG`: the three env-derived credentials, each
defaulting to the empty string when unset. -/
structure AzureAdConfig where
  clientId : String
  clientSecret : String
  tenantId : String
deriving DecidableEq, Repr

/-- Embedding of `CachedToken`. `expiresAt` is in milliseconds since epoch. -/
structure CachedToken where
  accessToken : String
  expiresAt : Nat
deriving DecidableEq, Repr

/-- The module-level `tokenCache` Map, as an association list keyed by the
cache-key string, threaded explicitly through the operations. -/
abbrev TokenCache := List (String × CachedToken)

/-- Map.get on the cache. -/
def cacheLookup (key : String) : TokenCache → Option CachedToken
  | [] => none
  | (k, v) :: rest => if k = key then some v else cacheLookup key rest

/-- Map.set on the cache: replaces the binding in place, else appends. -/
def cacheSet (key : String) (v : CachedToken) : TokenCache → TokenCache
  | [] => [(key, v)]
  | (k, w) :: rest => if k = key then (k, v) :: rest else (k, w) :: cacheSet key v rest

/-- Embedding of `TOKEN_EXPIRY_BUFFER_MS` (5 minutes). -/
def TOKEN_EXPIRY_BUFFER_MS : Nat := 5 * 60 * 1000

/-- Embedding of `getCachedToken`: usable only while
`expiresAt > now + TOKEN_EXPIRY_BUFFER_MS`. `now` stands for `Date.now()`. -/
def getCachedToken (cache : TokenCache) (now : Nat) (cacheKey : String) : Option String :=
  match cacheLookup cacheKey cache with
  | some cached =>
    if now + TOKEN_EXPIRY_BUFFER_MS < cached.expiresAt then some cached.accessToken else none
  | none => none

/-- Embedding of `setCachedToken`: `expiresAt = Date.now() + expiresIn * 1000`. -/
def setCachedToken (cache : TokenCache) (now : Nat) (cacheKey accessToken : String)
    (expiresIn : Nat) : TokenCache :=
  cacheSet cacheKey { accessToken := accessToken, expiresAt := now + expiresIn * 1000 } cache

/-- Embedding of `AzureTokenResult`. -/
inductive AzureTokenResult where
  | ok (accessToken : String)
  | err (error : String)
deriving DecidableEq, Repr

/-- A request POSTed to the token endpoint: the grant type together with the
per-call fields (the config-derived client id/secret/tenant are determined by
the `AzureAdConfig` argument and kept out of the request). -/
inductive TokenRequest where
  | refreshGrant (refreshToken : String) (scope : String)
  | oboGrant (assertion : String) (scope : String)
deriving DecidableEq, Repr

/-- Response of the token endpoint to one request: the fetch may throw
(`netFail`, e.g. timeout), return a non-success HTTP status with a body text,
or succeed with a JSON body whose `access_token` / `expires_in` fields are
each possibly absent. A present-but-empty `access_token` is falsy in the
source, so the code below treats it like an absent one. -/
inductive FetchOutcome where
  | netFail (msg : String)
  | httpError (status : Nat) (body : String)
  | success (accessToken : Option String) (expiresIn : Option Nat)
deriving DecidableEq, Repr

/-- Result of one broker operation: the returned `AzureTokenResult`, the
cache state aforwards, and the token-endpoint requests issued (in order). -/
structure BrokerStep where
  result : AzureTokenResult
  cache : TokenCache
  requests : List TokenRequest
deriving DecidableEq, Repr

/-- The `targetScopes: string | string[]` argument. -/
inductive TargetScopes where
  | one (s : String)
  | many (l : List String)
deriving DecidableEq, Repr

/-- Embedding of `Array.isArray(targetScopes) ? targetScopes.join(" ") : targetScopes`. -/
def joinScopes : TargetScopes → String
  | TargetScopes.one s => s
  | TargetScopes.many l => String.intercalate " " l

/-- The not-configured error message shared verbatim by both operations. -/
def azureNotConfiguredMessage : String :=
  "Azure AD credentials not configured. Set AZURE_AD_CLIENT_ID, AZURE_AD_CLIENT_SECRET, AZURE_AD_TENANT_ID."

/-- Embedding of `acquireTokenSilent`: cache check under `silent:{scopes}`,
then the configuration guard, then the `grant_type=refresh_token` POST. The
token endpoint is the oracle `net`. -/
def acquireTokenSilent (cfg : AzureAdConfig) (net : TokenRequest → FetchOutcome)
    (cache : TokenCache) (now : Nat) (refreshToken : String)
    (targetScopes : TargetScopes) : BrokerStep :=
  let scopes := joinScopes targetScopes
  let cacheKey := "silent:" ++ scopes
  match getCachedToken cache now cacheKey with
  | some cached => { result := AzureTokenResult.ok cached, cache := cache, requests := [] }
  | none =>
    if cfg.clientId = "" ∨ cfg.clientSecret = "" ∨ cfg.tenantId = "" then
      { result := AzureTokenResult.err azureNotConfiguredMessage, cache := cache, requests := [] }
    else
      let req := TokenRequest.refreshGrant refreshToken scopes
      match net req with
      | FetchOutcome.netFail msg =>
        { result := AzureTokenResult.err ("Silent token acquisition failed: " ++ msg),
          cache := cache, requests := [req] }
      | FetchOutcome.httpError status detail =>
        { result := AzureTokenResult.err
            ("Silent token acquisition error (" ++ toString status ++ "): " ++ detail),
          cache := cache, requests := [req] }
      | FetchOutcome.success accessToken expiresIn =>
        if accessToken.getD "" = "" then
          { result := AzureTokenResult.err "No access_token in refresh response",
            cache := cache, requests := [req] }
        else
          let tok := accessToken.getD ""
          let ei := expiresIn.getD 3600
          { result := AzureTokenResult.ok tok,
            cache := setCachedToken cache now cacheKey tok ei, requests := [req] }

/-- Embedding of `exchangeTokenOBO`: cache check under `obo:{scopes}`, then
the configuration guard, then the `jwt-bearer` on-behalf-of POST carrying the
assertion. -/
def exchangeTokenOBO (cfg : AzureAdConfig) (net : TokenRequest → FetchOutcome)
    (cache : TokenCache) (now : Nat) (userToken : String)
    (targetScopes : TargetScopes) : BrokerStep :=
  let scopes := joinScopes targetScopes
  let cacheKey := "obo:" ++ scopes
  match getCachedToken cache now cacheKey with
  | some cached => { result := AzureTokenResult.ok cached, cache := cache, requests := [] }
  | none =>
    if cfg.clientId = "" ∨ cfg.clientSecret = "" ∨ cfg.tenantId = "" then
      { result := AzureTokenResult.err azureNotConfiguredMessage, cache := cache, requests := [] }
    else
      let req := TokenRequest.oboGrant userToken scopes
      match net req with
      | FetchOutcome.netFail msg =>
        { result := AzureTokenResult.err ("OBO exchange failed: " ++ msg),
          cache := cache, requests := [req] }
      | FetchOutcome.httpError status detail =>
        { result := AzureTokenResult.err
            ("OBO token error (" ++ toString status ++ "): " ++ detail),
          cache := cache, requests := [req] }
      | FetchOutcome.success accessToken expiresIn =>
        if accessToken.getD "" = "" then
          { result := AzureTokenResult.err "No access_token in OBO response",
            cache := cache, requests := [req] }
        else
          let tok := accessToken.getD ""
          let ei := expiresIn.getD 3600
          { result := AzureTokenResult.ok tok,
            cache := setCachedToken cache now cacheKey tok ei, requests := [req] }

/-- Embedding of `OUR_APP_SCOPE`: the fixed own-application scope. -/
def OUR_APP_SCOPE (cfg : AzureAdConfig) : String :=
  "api://" ++ cfg.clientId ++ "/User.Access"

/-- Embedding of `acquireDownstreamToken`: silent acquisition for the own-app
scope; on failure return that result unchanged; on success exchange the
resulting token via OBO for the requested downstream scopes. -/
def acquireDownstreamToken (cfg : AzureAdConfig) (net : TokenRequest → FetchOutcome)
    (cache : TokenCache) (now : Nat) (refreshToken : String)
    (targetScopes : TargetScopes) : BrokerStep :=
  let silentResult :=
    acquireTokenSilent cfg net cache now refreshToken (TargetScopes.one (OUR_APP_SCOPE cfg))
  match silentResult.result with
  | AzureTokenResult.err e =>
    { result := AzureTokenResult.err e, cache := silentResult.cache,
      requests := silentResult.requests }
  | AzureTokenResult.ok accessToken =>
    let obo := exchangeTokenOBO cfg net silentResult.cache now accessToken targetScopes
    { result := obo.result, cache := obo.cache,
      requests := silentResult.requests ++ obo.requests }

/-- Embedding of `isAzureOBOConfigured`: all three credentials truthy. -/
def isAzureOBOConfigured (cfg : AzureAdConfig) : Bool :=
  !(cfg.clientId = "") && !(cfg.clientSecret = "") && !(cfg.tenantId = "")

/-- One call into the broker module, as far as the shared `tokenCache` is
concerned: the three exported operations with their per-call arguments. -/
inductive BrokerOp where
  | silentOp (net : TokenRequest → FetchOutcome) (now : Nat) (refreshToken : String)
      (targetScopes : TargetScopes)
  | oboOp (net : TokenRequest → FetchOutcome) (now : Nat) (userToken : String)
      (targetScopes : TargetScopes)
  | downstreamOp (net : TokenRequest → FetchOutcome) (now : Nat) (refreshToken : String)
      (targetScopes : TargetScopes)

/-- The cache state after one broker call. -/
def applyBrokerOp (cfg : AzureAdConfig) (cache : TokenCache) : BrokerOp → TokenCache
  | BrokerOp.silentOp net now refreshToken ts =>
    (acquireTokenSilent cfg net cache now refreshToken ts).cache
  | BrokerOp.oboOp net now userToken ts =>
    (exchangeTokenOBO cfg net cache now userToken ts).cache
  | BrokerOp.downstreamOp net now refreshToken ts =>
    (acquireDownstreamToken cfg net cache now refreshToken ts).cache

/-- Cache states reachable in a process: the module-level `tokenCache` starts
out empty (`new Map()`) and is mutated only by the broker operations, all
under the one process-constant `AZURE_AD_CONFIG`. -/
inductive ReachableCache (cfg : AzureAdConfig) : TokenCache → Prop where
  | init : ReachableCache cfg []
  | step (cache : TokenCache) (op : BrokerOp) (h : ReachableCache cfg cache) :
      ReachableCache cfg (applyBrokerOp cfg cache op)

/-! ## Gateway connection authorizer (modelled from the spec) -/

/-- Modelled from the spec: the `auth` configuration record passed to
`authorizeGatewayConnect` (the implementation in src/gateway/auth.ts is not
among the provided sources, only its tests are): a mode of "token",
"password" or "oidc", the optional static credentials, and the
tailscale-identity switch. -/
structure GatewayAuthConfig where
  mode : String
  token : Option String
  password : Option String
  allowTailscale : Bool
deriving DecidableEq, Repr

/-- Modelled from the spec: the `connectAuth` credentials presented with one
connection attempt; all three fields may be present simultaneously. -/
structure GatewayConnectAuth where
  token : Option String
  password : Option String
  oidcToken : Option String
deriving DecidableEq, Repr

/-- Modelled from the spec: the `AuthResult` sum type of the authorizer. -/
inductive GatewayAuthResult where
  | accepted (method : String) (user : Option String)
  | rejected (reason : String)
deriving DecidableEq, Repr

/-- Modelled from the spec: step 3 of the authorizer decision order, the
mode-specific check, with the last evaluated OIDC failure reason carried in
for `mode = oidc`. -/
def gatewayModeCheck (auth : GatewayAuthConfig) (connectAuth : Option GatewayConnectAuth)
    (oidcFailure : Option String) : GatewayAuthResult :=
  if auth.mode = "token" then
    match auth.token with
    | none => GatewayAuthResult.rejected "token_missing_config"
    | some configured =>
      match connectAuth.bind (fun ca => ca.token) with
      | none => GatewayAuthResult.rejected "token_missing"
      | some presented =>
        if presented = configured then GatewayAuthResult.accepted "token" none
        else GatewayAuthResult.rejected "token_mismatch"
  else if auth.mode = "password" then
    match auth.password with
    | none => GatewayAuthResult.rejected "password_missing_config"
    | some configured =>
      match connectAuth.bind (fun ca => ca.password) with
      | none => GatewayAuthResult.rejected "password_missing"
      | some presented =>
        if presented = configured then GatewayAuthResult.accepted "password" none
        else GatewayAuthResult.rejected "password_mismatch"
  else
    match oidcFailure with
    | some r => GatewayAuthResult.rejected r
    | none => GatewayAuthResult.rejected "oidc_token_missing"

/-- Modelled from the spec: `authorizeGatewayConnect` (src/gateway/auth.ts,
absent from the provided sources — only its tests ship). Decision order per
spec section 4.2: (1) identity-proxy shortcut when `allowTailscale` is set
and the proxy lookup resolves an identity (`tailscaleIdentity` abstracts the
origin recognition plus whois lookup); (2) OIDC check whenever a verifier is
supplied and an `oidcToken` is presented, independent of mode — success
accepts with method "oidc", failure falls through; (3) the mode-specific
check. -/
def authorizeGatewayConnect (auth : GatewayAuthConfig)
    (connectAuth : Option GatewayConnectAuth)
    (tailscaleIdentity : Option String)
    (oidcVerifier : Option (String → OidcVerifyResult)) : GatewayAuthResult :=
  match (if auth.allowTailscale then tailscaleIdentity else none) with
  | some login => GatewayAuthResult.accepted "tailscale" (some login)
  | none =>
    let oidcOutcome : Option OidcVerifyResult :=
      match oidcVerifier, connectAuth.bind (fun ca => ca.oidcToken) with
      | some v, some t => some (v t)
      | _, _ => none
    match oidcOutcome with
    | some (OidcVerifyResult.ok user _claims) => GatewayAuthResult.accepted "oidc" (some user)
    | some (OidcVerifyResult.err r) => gatewayModeCheck auth connectAuth (some r)
    | none => gatewayModeCheck auth connectAuth none

/-! ## Theorems -/

/-- C6: when the cryptographic validation of the assertion throws, `verify`
returns a tagged failure whose reason is `oidc_token_expired` for an expiry
error, `oidc_signature_invalid` for a signature-verification error, and the
generic `oidc_token_invalid` for every other failure code (wrong issuer,
wrong audience, malformed token, ...). -/
theorem verify_crypto_failure_reason_mapping
    (config : OidcVerifierConfig) (code : String) :
    (code = "ERR_JWT_EXPIRED" →
      verify config (CryptoOutcome.err code) = OidcVerifyResult.err "oidc_token_expired") ∧
    (code = "ERR_JWS_SIGNATURE_VERIFICATION_FAILED" →
      verify config (CryptoOutcome.err code) = OidcVerifyResult.err "oidc_signature_invalid") ∧
    (code ≠ "ERR_JWT_EXPIRED" → code ≠ "ERR_JWS_SIGNATURE_VERIFICATION_FAILED" →
      verify config (CryptoOutcome.err code) = OidcVerifyResult.err "oidc_token_invalid") := by
  refine ⟨fun h => ?_, fun h => ?_, fun h1 h2 => ?_⟩
  · subst h; rfl
  · subst h; rfl
  · show (if code = "ERR_JWT_EXPIRED" then OidcVerifyResult.err "oidc_token_expired"
      else if code = "ERR_JWS_SIGNATURE_VERIFICATION_FAILED" then
        OidcVerifyResult.err "oidc_signature_invalid"
      else OidcVerifyResult.err "oidc_token_invalid") = OidcVerifyResult.err "oidc_token_invalid"
    rw [if_neg h1, if_neg h2]

/-- Witness for C6 at concrete error codes. -/
theorem verify_crypto_failure_reason_mapping_witness :
    verify { issuer := "i", audience := "a", userClaim := none,
             allowedDomains := none, allowedEmails := none }
        (CryptoOutcome.err "ERR_JWT_CLAIM_VALIDATION_FAILED")
      = OidcVerifyResult.err "oidc_token_invalid" :=
  (verify_crypto_failure_reason_mapping
      { issuer := "i", audience := "a", userClaim := none,
        allowedDomains := none, allowedEmails := none }
      "ERR_JWT_CLAIM_VALIDATION_FAILED").2.2 (by decide) (by decide)

/-- C7: for an assertion whose cryptographic validation succeeds, `verify`
fails with `oidc_user_claim_missing` exactly when the configured user claim
(default "sub") is absent, not a string, or empty after trimming — and this
verdict is reached before any allowlist check, so such a token reports
`oidc_user_claim_missing` even when it would also violate an allowlist. -/
theorem verify_user_claim_missing_iff :
    (∀ (config : OidcVerifierConfig) (payload : Payload),
      verify config (CryptoOutcome.ok payload) = OidcVerifyResult.err "oidc_user_claim_missing" ↔
        extractUserClaim payload (config.userClaim.getD "sub") = none) ∧
    (∀ (payload : Payload) (claim : String),
      extractUserClaim payload claim = none ↔
        ¬ ∃ s, payloadGet payload claim = some (JsonVal.str s) ∧ jsTrim s ≠ "") := by
  constructor
  · intro config payload
    unfold verify
    cases h : extractUserClaim payload (config.userClaim.getD "sub") with
    | none => simp [h]
    | some user =>
      simp only [h]
      constructor
      · intro hcontra
        split at hcontra
        · simp at hcontra
        · split at hcontra
          · simp at hcontra
          · simp at hcontra
      · intro hcontra
        simp at hcontra
  · intro payload claim
    unfold extractUserClaim
    cases h : payloadGet payload claim with
    | none => simp
    | some v =>
      cases v with
      | nonString => simp
      | str s =>
        by_cases ht : jsTrim s = ""
        · simp [ht]
        · simp [ht]

/-- C10: an `allowedDomains` or `allowedEmails` value that is present but an
empty list imposes no restriction: `verify` behaves exactly as with the
allowlists unset, and an otherwise-valid assertion with no email claim is
accepted under empty-array allowlists. -/
theorem verify_empty_allowlists_no_restriction
    (issuer audience : String) (userClaim : Option String) (crypto : CryptoOutcome) :
    (verify { issuer := issuer, audience := audience, userClaim := userClaim,
              allowedDomains := some [], allowedEmails := some [] } crypto
      = verify { issuer := issuer, audience := audience, userClaim := userClaim,
                 allowedDomains := none, allowedEmails := none } crypto) ∧
    (∀ payload user, crypto = CryptoOutcome.ok payload →
      extractUserClaim payload (userClaim.getD "sub") = some user →
      oidcEmailClaim payload = none →
      verify { issuer := issuer, audience := audience, userClaim := userClaim,
               allowedDomains := some [], allowedEmails := some [] } crypto
        = OidcVerifyResult.ok user payload) := by
  constructor
  · cases crypto with
    | err code => rfl
    | ok payload =>
      unfold verify
      cases h : extractUserClaim payload (userClaim.getD "sub") <;>
        simp [allowlistNonEmpty]
  · intro payload user hc hu _hemail
    subst hc
    unfold verify
    simp [hu, allowlistNonEmpty]

/-- Witness for C10: a payload with only a "sub" claim and empty-array
allowlists is accepted. -/
theorem verify_empty_allowlists_no_restriction_witness :
    verify { issuer := "i", audience := "a", userClaim := none,
             allowedDomains := some [], allowedEmails := some [] }
        (CryptoOutcome.ok [("sub", JsonVal.str "u")])
      = OidcVerifyResult.ok "u" [("sub", JsonVal.str "u")] :=
  (verify_empty_allowlists_no_restriction "i" "a" none
      (CryptoOutcome.ok [("sub", JsonVal.str "u")])).2
    [("sub", JsonVal.str "u")] "u" rfl (by decide) (by decide)

/-- C8: with a non-empty `allowedDomains` configured and the cryptographic and
user-claim steps passed, `verify` accepts only if the payload's email claim is
a non-empty string ending in `@domain` for a configured domain (case-sensitive
suffix match); otherwise — including when the email claim is absent or not a
string — it rejects with `oidc_domain_not_allowed`. -/
theorem verify_domain_restriction :
    (∀ (email : Option String) (allowedDomains : List String),
      checkDomainRestriction email allowedDomains = true ↔
        ∃ s, email = some s ∧ s ≠ "" ∧ ∃ d ∈ allowedDomains, jsEndsWith s ("@" ++ d) = true) ∧
    (∀ (config : OidcVerifierConfig) (payload : Payload) (ds : List String) (user : String),
      config.allowedDomains = some ds → ds ≠ [] →
      extractUserClaim payload (config.userClaim.getD "sub") = some user →
      ((checkDomainRestriction (oidcEmailClaim payload) ds = false →
          verify config (CryptoOutcome.ok payload)
            = OidcVerifyResult.err "oidc_domain_not_allowed") ∧
       (oidcEmailClaim payload = none →
          verify config (CryptoOutcome.ok payload)
            = OidcVerifyResult.err "oidc_domain_not_allowed") ∧
       (∀ u claims, verify config (CryptoOutcome.ok payload) = OidcVerifyResult.ok u claims →
          checkDomainRestriction (oidcEmailClaim payload) ds = true))) := by
  constructor
  · intro email allowedDomains
    unfold checkDomainRestriction
    cases email with
    | none => simp
    | some e =>
      by_cases he : e = ""
      · simp [he]
      · simp [he, List.any_eq_true]
  · intro config payload ds user hds hne hu
    have hnonempty : allowlistNonEmpty (some ds) = true := by
      cases ds with
      | nil => exact absurd rfl hne
      | cons d tl => rfl
    refine ⟨fun hfail => ?_, fun hmiss => ?_, fun u claims hok => ?_⟩
    · unfold verify
      simp [hu, hds, hnonempty, hfail]
    · unfold verify
      have hfail : checkDomainRestriction (oidcEmailClaim payload) ds = false := by
        rw [hmiss]; rfl
      simp [hu, hds, hnonempty, hfail]
    · by_contra hfalse
      have hfail : checkDomainRestriction (oidcEmailClaim payload) ds = false :=
        Bool.eq_false_iff.mpr hfalse
      unfold verify at hok
      simp [hu, hds, hnonempty, hfail] at hok

/-- Witness for C8: a payload with no email claim under a configured domain
restriction is rejected with `oidc_domain_not_allowed`. -/
theorem verify_domain_restriction_witness :
    verify { issuer := "i", audience := "a", userClaim := none,
             allowedDomains := some ["mycompany.com"], allowedEmails := none }
        (CryptoOutcome.ok [("sub", JsonVal.str "u")])
      = OidcVerifyResult.err "oidc_domain_not_allowed" :=
  ((verify_domain_restriction.2
      { issuer := "i", audience := "a", userClaim := none,
        allowedDomains := some ["mycompany.com"], allowedEmails := none }
      [("sub", JsonVal.str "u")] ["mycompany.com"] "u" rfl (by decide) (by decide)).2.1
    (by decide))

/-- C9: with a non-empty `allowedEmails` configured, for a token that has
passed the cryptographic, user-claim and domain steps, membership of the
email claim in the allowlist under case-insensitive comparison is necessary
and sufficient for acceptance; a non-member — including an absent email —
rejects with `oidc_email_not_allowed`. -/
theorem verify_email_allowlist :
    (∀ (email : Option String) (allowedEmails : List String),
      checkEmailAllowlist email allowedEmails = true ↔
        ∃ s, email = some s ∧ s ≠ "" ∧ ∃ a ∈ allowedEmails, jsToLower a = jsToLower s) ∧
    (∀ (config : OidcVerifierConfig) (payload : Payload) (es : List String) (user : String),
      config.allowedEmails = some es → es ≠ [] →
      extractUserClaim payload (config.userClaim.getD "sub") = some user →
      (∀ ds, config.allowedDomains = some ds → ds ≠ [] →
        checkDomainRestriction (oidcEmailClaim payload) ds = true) →
      ((verify config (CryptoOutcome.ok payload) = OidcVerifyResult.ok user payload ↔
          checkEmailAllowlist (oidcEmailClaim payload) es = true) ∧
       (checkEmailAllowlist (oidcEmailClaim payload) es = false →
          verify config (CryptoOutcome.ok payload)
            = OidcVerifyResult.err "oidc_email_not_allowed") ∧
       (oidcEmailClaim payload = none →
          verify config (CryptoOutcome.ok payload)
            = OidcVerifyResult.err "oidc_email_not_allowed"))) := by
  constructor
  · intro email allowedEmails
    unfold checkEmailAllowlist
    cases email with
    | none => simp
    | some e =>
      by_cases he : e = ""
      · simp [he]
      · simp [he, List.any_eq_true]
  · intro config payload es user hes hne hu hdom
    have hnonempty : allowlistNonEmpty (some es) = true := by
      cases es with
      | nil => exact absurd rfl hne
      | cons e tl => rfl
    have hdomainSkip : (allowlistNonEmpty config.allowedDomains
        && !checkDomainRestriction (oidcEmailClaim payload)
              (config.allowedDomains.getD [])) = false := by
      cases hcase : config.allowedDomains with
      | none => rfl
      | some ds =>
        cases ds with
        | nil => rfl
        | cons d tl =>
          have := hdom (d :: tl) hcase (by simp)
          simp [allowlistNonEmpty, this]
    refine ⟨?_, fun hfail => ?_, fun hmiss => ?_⟩
    · constructor
      · intro hok
        by_contra hfalse
        have hfail : checkEmailAllowlist (oidcEmailClaim payload) es = false :=
          Bool.eq_false_iff.mpr hfalse
        unfold verify at hok
        simp only [hu] at hok
        rw [hdomainSkip] at hok
        simp [hes, hnonempty, hfail] at hok
      · intro hpass
        unfold verify
        simp only [hu]
        rw [hdomainSkip]
        simp [hes, hnonempty, hpass]
    · unfold verify
      simp only [hu]
      rw [hdomainSkip]
      simp [hes, hnonempty, hfail]
    · have hfail : checkEmailAllowlist (oidcEmailClaim payload) es = false := by
        rw [hmiss]; rfl
      unfold verify
      simp only [hu]
      rw [hdomainSkip]
      simp [hes, hnonempty, hfail]

/-- Witness for C9: a case-insensitively matching email is accepted; the
allowlist step is exercised through the full `verify` pipeline. -/
theorem verify_email_allowlist_witness :
    verify { issuer := "i", audience := "a", userClaim := none,
             allowedDomains := none, allowedEmails := some ["admin@example.com"] }
        (CryptoOutcome.ok [("email", JsonVal.str "Admin@Example.com"), ("sub", JsonVal.str "u")])
      = OidcVerifyResult.ok "u"
          [("email", JsonVal.str "Admin@Example.com"), ("sub", JsonVal.str "u")] :=
  ((verify_email_allowlist.2
      { issuer := "i", audience := "a", userClaim := none,
        allowedDomains := none, allowedEmails := some ["admin@example.com"] }
      [("email", JsonVal.str "Admin@Example.com"), ("sub", JsonVal.str "u")]
      ["admin@example.com"] "u" rfl (by decide) (by decide)
      (fun ds hds => by cases hds)).1.mpr (by decide))

/-- Looking up a key right after setting it returns the new entry. -/
theorem cacheLookup_cacheSet_self (key : String) (v : CachedToken) (c : TokenCache) :
    cacheLookup key (cacheSet key v c) = some v := by
  induction c with
  | nil => simp [cacheSet, cacheLookup]
  | cons hd tl ih =>
    obtain ⟨k, w⟩ := hd
    by_cases h : k = key
    · simp [cacheSet, cacheLookup, h]
    · simp [cacheSet, cacheLookup, h, ih]

/-- Characterization of a cache hit in `getCachedToken`. -/
theorem getCachedToken_some_iff (cache : TokenCache) (now : Nat) (key tok : String) :
    getCachedToken cache now key = some tok ↔
      ∃ e, cacheLookup key cache = some e ∧ e.accessToken = tok ∧
        now + TOKEN_EXPIRY_BUFFER_MS < e.expiresAt := by
  unfold getCachedToken
  cases h : cacheLookup key cache with
  | none => simp
  | some e =>
    by_cases hf : now + TOKEN_EXPIRY_BUFFER_MS < e.expiresAt
    · simp only [if_pos hf, Option.some.injEq]
      constructor
      · intro h1; exact ⟨e, rfl, h1, hf⟩
      · rintro ⟨e2, he2, hacc, _⟩
        subst he2
        exact hacc
    · simp only [if_neg hf]
      constructor
      · intro h1; cases h1
      · rintro ⟨e2, he2, hacc, hfr⟩
        injection he2 with he2
        subst he2
        exact absurd hfr hf

/-- Shape of `acquireTokenSilent` on a cache hit. -/
theorem acquireTokenSilent_hit (cfg : AzureAdConfig) (net : TokenRequest → FetchOutcome)
    (cache : TokenCache) (now : Nat) (refreshToken : String) (ts : TargetScopes) (tok : String)
    (hg : getCachedToken cache now ("silent:" ++ joinScopes ts) = some tok) :
    acquireTokenSilent cfg net cache now refreshToken ts
      = { result := AzureTokenResult.ok tok, cache := cache, requests := [] } := by
  unfold acquireTokenSilent
  simp only [hg]

/-- Shape of `acquireTokenSilent` on a cache miss without configuration. -/
theorem acquireTokenSilent_miss_notconf (cfg : AzureAdConfig)
    (net : TokenRequest → FetchOutcome) (cache : TokenCache) (now : Nat)
    (refreshToken : String) (ts : TargetScopes)
    (hg : getCachedToken cache now ("silent:" ++ joinScopes ts) = none)
    (hc : cfg.clientId = "" ∨ cfg.clientSecret = "" ∨ cfg.tenantId = "") :
    acquireTokenSilent cfg net cache now refreshToken ts
      = { result := AzureTokenResult.err azureNotConfiguredMessage, cache := cache,
          requests := [] } := by
  unfold acquireTokenSilent
  simp only [hg]
  rw [if_pos hc]

/-- Shape of `acquireTokenSilent` on a cache miss with configuration: the one
fetch happens and its outcome decides everything. -/
theorem acquireTokenSilent_miss (cfg : AzureAdConfig) (net : TokenRequest → FetchOutcome)
    (cache : TokenCache) (now : Nat) (refreshToken : String) (ts : TargetScopes)
    (hg : getCachedToken cache now ("silent:" ++ joinScopes ts) = none)
    (hc : ¬(cfg.clientId = "" ∨ cfg.clientSecret = "" ∨ cfg.tenantId = "")) :
    acquireTokenSilent cfg net cache now refreshToken ts
      = match net (TokenRequest.refreshGrant refreshToken (joinScopes ts)) with
        | FetchOutcome.netFail msg =>
          { result := AzureTokenResult.err ("Silent token acquisition failed: " ++ msg),
            cache := cache,
            requests := [TokenRequest.refreshGrant refreshToken (joinScopes ts)] }
        | FetchOutcome.httpError status detail =>
          { result := AzureTokenResult.err
              ("Silent token acquisition error (" ++ toString status ++ "): " ++ detail),
            cache := cache,
            requests := [TokenRequest.refreshGrant refreshToken (joinScopes ts)] }
        | FetchOutcome.success accessToken expiresIn =>
          if accessToken.getD "" = "" then
            { result := AzureTokenResult.err "No access_token in refresh response",
              cache := cache,
              requests := [TokenRequest.refreshGrant refreshToken (joinScopes ts)] }
          else
            { result := AzureTokenResult.ok (accessToken.getD ""),
              cache := setCachedToken cache now ("silent:" ++ joinScopes ts)
                (accessToken.getD "") (expiresIn.getD 3600),
              requests := [TokenRequest.refreshGrant refreshToken (joinScopes ts)] } := by
  unfold acquireTokenSilent
  simp only [hg]
  rw [if_neg hc]

/-- Shape of `exchangeTokenOBO` on a cache hit. -/
theorem exchangeTokenOBO_hit (cfg : AzureAdConfig) (net : TokenRequest → FetchOutcome)
    (cache : TokenCache) (now : Nat) (userToken : String) (ts : TargetScopes) (tok : String)
    (hg : getCachedToken cache now ("obo:" ++ joinScopes ts) = some tok) :
    exchangeTokenOBO cfg net cache now userToken ts
      = { result := AzureTokenResult.ok tok, cache := cache, requests := [] } := by
  unfold exchangeTokenOBO
  simp only [hg]

/-- Shape of `exchangeTokenOBO` on a cache miss without configuration. -/
theorem exchangeTokenOBO_miss_notconf (cfg : AzureAdConfig)
    (net : TokenRequest → FetchOutcome) (cache : TokenCache) (now : Nat)
    (userToken : String) (ts : TargetScopes)
    (hg : getCachedToken cache now ("obo:" ++ joinScopes ts) = none)
    (hc : cfg.clientId = "" ∨ cfg.clientSecret = "" ∨ cfg.tenantId = "") :
    exchangeTokenOBO cfg net cache now userToken ts
      = { result := AzureTokenResult.err azureNotConfiguredMessage, cache := cache,
          requests := [] } := by
  unfold exchangeTokenOBO
  simp only [hg]
  rw [if_pos hc]

/-- Shape of `exchangeTokenOBO` on a cache miss with configuration. -/
theorem exchangeTokenOBO_miss (cfg : AzureAdConfig) (net : TokenRequest → FetchOutcome)
    (cache : TokenCache) (now : Nat) (userToken : String) (ts : TargetScopes)
    (hg : getCachedToken cache now ("obo:" ++ joinScopes ts) = none)
    (hc : ¬(cfg.clientId = "" ∨ cfg.clientSecret = "" ∨ cfg.tenantId = "")) :
    exchangeTokenOBO cfg net cache now userToken ts
      = match net (TokenRequest.oboGrant userToken (joinScopes ts)) with
        | FetchOutcome.netFail msg =>
          { result := AzureTokenResult.err ("OBO exchange failed: " ++ msg),
            cache := cache,
            requests := [TokenRequest.oboGrant userToken (joinScopes ts)] }
        | FetchOutcome.httpError status detail =>
          { result := AzureTokenResult.err
              ("OBO token error (" ++ toString status ++ "): " ++ detail),
            cache := cache,
            requests := [TokenRequest.oboGrant userToken (joinScopes ts)] }
        | FetchOutcome.success accessToken expiresIn =>
          if accessToken.getD "" = "" then
            { result := AzureTokenResult.err "No access_token in OBO response",
              cache := cache,
              requests := [TokenRequest.oboGrant userToken (joinScopes ts)] }
          else
            { result := AzureTokenResult.ok (accessToken.getD ""),
              cache := setCachedToken cache now ("obo:" ++ joinScopes ts)
                (accessToken.getD "") (expiresIn.getD 3600),
              requests := [TokenRequest.oboGrant userToken (joinScopes ts)] } := by
  unfold exchangeTokenOBO
  simp only [hg]
  rw [if_neg hc]

/-- C3: a cached token is served by `acquireTokenSilent` or `exchangeTokenOBO`
only while the entry's `expiresAt` lies more than `TOKEN_EXPIRY_BUFFER_MS`
(5 minutes) beyond the current time; a staler or absent entry is treated as a
miss, so the configured broker issues the one upstream fetch, whose success
overwrites the entry in place under the same key. -/
theorem tokenCache_expiry_buffer_invariant :
    (∀ (cache : TokenCache) (now : Nat) (key tok : String),
      getCachedToken cache now key = some tok ↔
        ∃ e, cacheLookup key cache = some e ∧ e.accessToken = tok ∧
          now + TOKEN_EXPIRY_BUFFER_MS < e.expiresAt) ∧
    (∀ (cfg : AzureAdConfig) (net : TokenRequest → FetchOutcome) (cache : TokenCache)
        (now : Nat) (refreshToken : String) (ts : TargetScopes) (tok : String),
      (acquireTokenSilent cfg net cache now refreshToken ts).result = AzureTokenResult.ok tok →
      (acquireTokenSilent cfg net cache now refreshToken ts).requests = [] →
      ∃ e, cacheLookup ("silent:" ++ joinScopes ts) cache = some e ∧ e.accessToken = tok ∧
        now + TOKEN_EXPIRY_BUFFER_MS < e.expiresAt) ∧
    (∀ (cfg : AzureAdConfig) (net : TokenRequest → FetchOutcome) (cache : TokenCache)
        (now : Nat) (userToken : String) (ts : TargetScopes) (tok : String),
      (exchangeTokenOBO cfg net cache now userToken ts).result = AzureTokenResult.ok tok →
      (exchangeTokenOBO cfg net cache now userToken ts).requests = [] →
      ∃ e, cacheLookup ("obo:" ++ joinScopes ts) cache = some e ∧ e.accessToken = tok ∧
        now + TOKEN_EXPIRY_BUFFER_MS < e.expiresAt) ∧
    (∀ (cfg : AzureAdConfig) (net : TokenRequest → FetchOutcome) (cache : TokenCache)
        (now : Nat) (refreshToken : String) (ts : TargetScopes) (tok : String) (ei : Nat),
      getCachedToken cache now ("silent:" ++ joinScopes ts) = none →
      ¬(cfg.clientId = "" ∨ cfg.clientSecret = "" ∨ cfg.tenantId = "") →
      net (TokenRequest.refreshGrant refreshToken (joinScopes ts))
        = FetchOutcome.success (some tok) (some ei) →
      tok ≠ "" →
      acquireTokenSilent cfg net cache now refreshToken ts
        = { result := AzureTokenResult.ok tok,
            cache := setCachedToken cache now ("silent:" ++ joinScopes ts) tok ei,
            requests := [TokenRequest.refreshGrant refreshToken (joinScopes ts)] } ∧
      cacheLookup ("silent:" ++ joinScopes ts)
          (setCachedToken cache now ("silent:" ++ joinScopes ts) tok ei)
        = some { accessToken := tok, expiresAt := now + ei * 1000 }) ∧
    (∀ (cfg : AzureAdConfig) (net : TokenRequest → FetchOutcome) (cache : TokenCache)
        (now : Nat) (userToken : String) (ts : TargetScopes) (tok : String) (ei : Nat),
      getCachedToken cache now ("obo:" ++ joinScopes ts) = none →
      ¬(cfg.clientId = "" ∨ cfg.clientSecret = "" ∨ cfg.tenantId = "") →
      net (TokenRequest.oboGrant userToken (joinScopes ts))
        = FetchOutcome.success (some tok) (some ei) →
      tok ≠ "" →
      exchangeTokenOBO cfg net cache now userToken ts
        = { result := AzureTokenResult.ok tok,
            cache := setCachedToken cache now ("obo:" ++ joinScopes ts) tok ei,
            requests := [TokenRequest.oboGrant userToken (joinScopes ts)] } ∧
      cacheLookup ("obo:" ++ joinScopes ts)
          (setCachedToken cache now ("obo:" ++ joinScopes ts) tok ei)
        = some { accessToken := tok, expiresAt := now + ei * 1000 }) := by
  refine ⟨getCachedToken_some_iff, ?_, ?_, ?_, ?_⟩
  · intro cfg net cache now refreshToken ts tok hok hreq
    cases hg : getCachedToken cache now ("silent:" ++ joinScopes ts) with
    | some cached =>
      rw [acquireTokenSilent_hit cfg net cache now refreshToken ts cached hg] at hok
      have h2 : AzureTokenResult.ok cached = AzureTokenResult.ok tok := hok
      injection h2 with h2
      subst h2
      exact (getCachedToken_some_iff cache now _ _).mp hg
    | none =>
      exfalso
      by_cases hc : cfg.clientId = "" ∨ cfg.clientSecret = "" ∨ cfg.tenantId = ""
      · rw [acquireTokenSilent_miss_notconf cfg net cache now refreshToken ts hg hc] at hok
        exact absurd hok (by simp)
      · rw [acquireTokenSilent_miss cfg net cache now refreshToken ts hg hc] at hreq
        cases hn : net (TokenRequest.refreshGrant refreshToken (joinScopes ts)) with
        | netFail msg => rw [hn] at hreq; exact absurd hreq (by simp)
        | httpError status detail => rw [hn] at hreq; exact absurd hreq (by simp)
        | success accessToken expiresIn =>
          rw [hn] at hreq
          by_cases hat : accessToken.getD "" = ""
          · simp [hat] at hreq
          · simp [hat] at hreq
  · intro cfg net cache now userToken ts tok hok hreq
    cases hg : getCachedToken cache now ("obo:" ++ joinScopes ts) with
    | some cached =>
      rw [exchangeTokenOBO_hit cfg net cache now userToken ts cached hg] at hok
      have h2 : AzureTokenResult.ok cached = AzureTokenResult.ok tok := hok
      injection h2 with h2
      subst h2
      exact (getCachedToken_some_iff cache now _ _).mp hg
    | none =>
      exfalso
      by_cases hc : cfg.clientId = "" ∨ cfg.clientSecret = "" ∨ cfg.tenantId = ""
      · rw [exchangeTokenOBO_miss_notconf cfg net cache now userToken ts hg hc] at hok
        exact absurd hok (by simp)
      · rw [exchangeTokenOBO_miss cfg net cache now userToken ts hg hc] at hreq
        cases hn : net (TokenRequest.oboGrant userToken (joinScopes ts)) with
        | netFail msg => rw [hn] at hreq; exact absurd hreq (by simp)
        | httpError status detail => rw [hn] at hreq; exact absurd hreq (by simp)
        | success accessToken expiresIn =>
          rw [hn] at hreq
          by_cases hat : accessToken.getD "" = ""
          · simp [hat] at hreq
          · simp [hat] at hreq
  · intro cfg net cache now refreshToken ts tok ei hg hcfg hnet htok
    constructor
    · rw [acquireTokenSilent_miss cfg net cache now refreshToken ts hg hcfg, hnet]
      simp [htok]
    · exact cacheLookup_cacheSet_self _ _ _
  · intro cfg net cache now userToken ts tok ei hg hcfg hnet htok
    constructor
    · rw [exchangeTokenOBO_miss cfg net cache now userToken ts hg hcfg, hnet]
      simp [htok]
    · exact cacheLookup_cacheSet_self _ _ _

/-- Witness for C3: a stale entry (expiry within the buffer) is refetched and
overwritten in place. -/
theorem tokenCache_expiry_buffer_invariant_witness :
    acquireTokenSilent { clientId := "c", clientSecret := "s", tenantId := "t" }
        (fun _ => FetchOutcome.success (some "NEW") (some 7200))
        [("silent:sc", { accessToken := "OLD", expiresAt := 200000 })] 0 "rt"
        (TargetScopes.one "sc")
      = { result := AzureTokenResult.ok "NEW",
          cache := setCachedToken [("silent:sc", { accessToken := "OLD", expiresAt := 200000 })]
            0 "silent:sc" "NEW" 7200,
          requests := [TokenRequest.refreshGrant "rt" "sc"] } :=
  (tokenCache_expiry_buffer_invariant.2.2.2.1
      { clientId := "c", clientSecret := "s", tenantId := "t" }
      (fun _ => FetchOutcome.success (some "NEW") (some 7200))
      [("silent:sc", { accessToken := "OLD", expiresAt := 200000 })] 0 "rt"
      (TargetScopes.one "sc") "NEW" 7200
      (by decide) (by decide) rfl (by decide)).1

/-- After a successful `exchangeTokenOBO`, the cache holds an entry for the
scope key whose token is exactly the returned one. -/
theorem exchangeTokenOBO_ok_cache_entry
    (cfg : AzureAdConfig) (net : TokenRequest → FetchOutcome) (cache : TokenCache) (now : Nat)
    (userToken : String) (ts : TargetScopes) (tok : String)
    (h : (exchangeTokenOBO cfg net cache now userToken ts).result = AzureTokenResult.ok tok) :
    ∃ e, cacheLookup ("obo:" ++ joinScopes ts)
        (exchangeTokenOBO cfg net cache now userToken ts).cache = some e ∧
      e.accessToken = tok := by
  cases hg : getCachedToken cache now ("obo:" ++ joinScopes ts) with
  | some cached =>
    rw [exchangeTokenOBO_hit cfg net cache now userToken ts cached hg] at h ⊢
    have h2 : AzureTokenResult.ok cached = AzureTokenResult.ok tok := h
    injection h2 with h2
    subst h2
    obtain ⟨e, he, hacc, _⟩ := (getCachedToken_some_iff cache now _ _).mp hg
    exact ⟨e, he, hacc⟩
  | none =>
    by_cases hc : cfg.clientId = "" ∨ cfg.clientSecret = "" ∨ cfg.tenantId = ""
    · rw [exchangeTokenOBO_miss_notconf cfg net cache now userToken ts hg hc] at h
      exact absurd h (by simp)
    · rw [exchangeTokenOBO_miss cfg net cache now userToken ts hg hc] at h ⊢
      cases hn : net (TokenRequest.oboGrant userToken (joinScopes ts)) with
      | netFail msg => rw [hn] at h; exact absurd h (by simp)
      | httpError status detail => rw [hn] at h; exact absurd h (by simp)
      | success accessToken expiresIn =>
        rw [hn] at h
        by_cases hat : accessToken.getD "" = ""
        · simp [hat] at h
        · simp [hat] at h ⊢
          refine ⟨{ accessToken := accessToken.getD "",
                    expiresAt := now + (expiresIn.getD 3600) * 1000 }, ?_, h⟩
          exact cacheLookup_cacheSet_self _ _ _

/-- C2: the OBO token cache is keyed by the scope string alone — after one
successful `exchangeTokenOBO` call, a second call for the same scopes made
while the written entry is still fresh returns the first caller's access
token for every assertion token and every state of the network, issuing no
request to the token endpoint and leaving the cache unchanged. -/
theorem exchangeTokenOBO_cache_ignores_assertion
    (cfg : AzureAdConfig) (net1 net2 : TokenRequest → FetchOutcome) (cache : TokenCache)
    (now1 now2 : Nat) (assertion1 assertion2 : String) (ts : TargetScopes) (tok : String)
    (h1 : (exchangeTokenOBO cfg net1 cache now1 assertion1 ts).result = AzureTokenResult.ok tok)
    (h2 : ∃ e, cacheLookup ("obo:" ++ joinScopes ts)
            (exchangeTokenOBO cfg net1 cache now1 assertion1 ts).cache = some e ∧
          now2 + TOKEN_EXPIRY_BUFFER_MS < e.expiresAt) :
    exchangeTokenOBO cfg net2 (exchangeTokenOBO cfg net1 cache now1 assertion1 ts).cache now2
        assertion2 ts
      = { result := AzureTokenResult.ok tok,
          cache := (exchangeTokenOBO cfg net1 cache now1 assertion1 ts).cache,
          requests := [] } := by
  obtain ⟨e, he, hfr⟩ := h2
  obtain ⟨e2, he2, hacc⟩ :=
    exchangeTokenOBO_ok_cache_entry cfg net1 cache now1 assertion1 ts tok h1
  rw [he] at he2
  injection he2 with he2
  subst he2
  have hg : getCachedToken (exchangeTokenOBO cfg net1 cache now1 assertion1 ts).cache now2
      ("obo:" ++ joinScopes ts) = some tok :=
    (getCachedToken_some_iff _ _ _ _).mpr ⟨e, he, hacc, hfr⟩
  exact exchangeTokenOBO_hit cfg net2 _ now2 assertion2 ts tok hg

/-- Witness for C2: the second caller, with a different assertion and a
network that would fail, is served the first caller's token from cache. -/
theorem exchangeTokenOBO_cache_ignores_assertion_witness :
    exchangeTokenOBO { clientId := "c", clientSecret := "s", tenantId := "t" }
        (fun _ => FetchOutcome.netFail "unreachable")
        (exchangeTokenOBO { clientId := "c", clientSecret := "s", tenantId := "t" }
          (fun _ => FetchOutcome.success (some "T1") (some 3600)) [] 0 "assertion-user-A"
          (TargetScopes.one "scope")).cache
        1000 "assertion-user-B" (TargetScopes.one "scope")
      = { result := AzureTokenResult.ok "T1",
          cache := (exchangeTokenOBO { clientId := "c", clientSecret := "s", tenantId := "t" }
            (fun _ => FetchOutcome.success (some "T1") (some 3600)) [] 0 "assertion-user-A"
            (TargetScopes.one "scope")).cache,
          requests := [] } :=
  exchangeTokenOBO_cache_ignores_assertion
    { clientId := "c", clientSecret := "s", tenantId := "t" }
    (fun _ => FetchOutcome.success (some "T1") (some 3600))
    (fun _ => FetchOutcome.netFail "unreachable") [] 0 1000
    "assertion-user-A" "assertion-user-B" (TargetScopes.one "scope") "T1"
    (by decide)
    ⟨{ accessToken := "T1", expiresAt := 3600000 }, by decide, by decide⟩

/-- Every token-endpoint request issued by `acquireTokenSilent` is a
refresh-token grant, never an on-behalf-of grant. -/
theorem acquireTokenSilent_requests_refresh_only
    (cfg : AzureAdConfig) (net : TokenRequest → FetchOutcome) (cache : TokenCache) (now : Nat)
    (refreshToken : String) (ts : TargetScopes) :
    ∀ r ∈ (acquireTokenSilent cfg net cache now refreshToken ts).requests,
      ∃ a sc, r = TokenRequest.refreshGrant a sc := by
  intro r hr
  cases hg : getCachedToken cache now ("silent:" ++ joinScopes ts) with
  | some cached =>
    rw [acquireTokenSilent_hit cfg net cache now refreshToken ts cached hg] at hr
    simp at hr
  | none =>
    by_cases hc : cfg.clientId = "" ∨ cfg.clientSecret = "" ∨ cfg.tenantId = ""
    · rw [acquireTokenSilent_miss_notconf cfg net cache now refreshToken ts hg hc] at hr
      simp at hr
    · rw [acquireTokenSilent_miss cfg net cache now refreshToken ts hg hc] at hr
      cases hn : net (TokenRequest.refreshGrant refreshToken (joinScopes ts)) with
      | netFail msg =>
        rw [hn] at hr
        simp at hr
        exact ⟨_, _, hr⟩
      | httpError status detail =>
        rw [hn] at hr
        simp at hr
        exact ⟨_, _, hr⟩
      | success accessToken expiresIn =>
        rw [hn] at hr
        by_cases hat : accessToken.getD "" = ""
        · simp [hat] at hr
          exact ⟨_, _, hr⟩
        · simp [hat] at hr
          exact ⟨_, _, hr⟩

/-- C4: `acquireDownstreamToken` is the exact composition of the two steps —
`acquireTokenSilent` for the fixed own-app scope first; on failure its error
is returned unchanged and no on-behalf-of request is ever issued; on success
the result is that of `exchangeTokenOBO` applied to the silent step's access
token and the requested downstream scopes. -/
theorem acquireDownstreamToken_composes
    (cfg : AzureAdConfig) (net : TokenRequest → FetchOutcome) (cache : TokenCache) (now : Nat)
    (refreshToken : String) (ts : TargetScopes) :
    (∀ e, (acquireTokenSilent cfg net cache now refreshToken
          (TargetScopes.one (OUR_APP_SCOPE cfg))).result = AzureTokenResult.err e →
      acquireDownstreamToken cfg net cache now refreshToken ts
        = { result := AzureTokenResult.err e,
            cache := (acquireTokenSilent cfg net cache now refreshToken
              (TargetScopes.one (OUR_APP_SCOPE cfg))).cache,
            requests := (acquireTokenSilent cfg net cache now refreshToken
              (TargetScopes.one (OUR_APP_SCOPE cfg))).requests } ∧
        ∀ r ∈ (acquireDownstreamToken cfg net cache now refreshToken ts).requests,
          ∃ a sc, r = TokenRequest.refreshGrant a sc) ∧
    (∀ tok, (acquireTokenSilent cfg net cache now refreshToken
          (TargetScopes.one (OUR_APP_SCOPE cfg))).result = AzureTokenResult.ok tok →
      acquireDownstreamToken cfg net cache now refreshToken ts
        = { result := (exchangeTokenOBO cfg net
              (acquireTokenSilent cfg net cache now refreshToken
                (TargetScopes.one (OUR_APP_SCOPE cfg))).cache now tok ts).result,
            cache := (exchangeTokenOBO cfg net
              (acquireTokenSilent cfg net cache now refreshToken
                (TargetScopes.one (OUR_APP_SCOPE cfg))).cache now tok ts).cache,
            requests := (acquireTokenSilent cfg net cache now refreshToken
                (TargetScopes.one (OUR_APP_SCOPE cfg))).requests
              ++ (exchangeTokenOBO cfg net
                  (acquireTokenSilent cfg net cache now refreshToken
                    (TargetScopes.one (OUR_APP_SCOPE cfg))).cache now tok ts).requests }) := by
  constructor
  · intro e he
    have heq : acquireDownstreamToken cfg net cache now refreshToken ts
        = { result := AzureTokenResult.err e,
            cache := (acquireTokenSilent cfg net cache now refreshToken
              (TargetScopes.one (OUR_APP_SCOPE cfg))).cache,
            requests := (acquireTokenSilent cfg net cache now refreshToken
              (TargetScopes.one (OUR_APP_SCOPE cfg))).requests } := by
      simp only [acquireDownstreamToken]
      rw [he]
    refine ⟨heq, ?_⟩
    rw [heq]
    exact acquireTokenSilent_requests_refresh_only cfg net cache now refreshToken
      (TargetScopes.one (OUR_APP_SCOPE cfg))
  · intro tok htok
    simp only [acquireDownstreamToken]
    rw [htok]

/-- Witness for C4: with no configuration, the silent step fails and
`acquireDownstreamToken` returns that failure with no request issued. -/
theorem acquireDownstreamToken_composes_witness :
    acquireDownstreamToken { clientId := "", clientSecret := "", tenantId := "" }
        (fun _ => FetchOutcome.netFail "down") [] 0 "rt" (TargetScopes.one "sc")
      = { result := AzureTokenResult.err azureNotConfiguredMessage, cache := [],
          requests := [] } :=
  ((acquireDownstreamToken_composes { clientId := "", clientSecret := "", tenantId := "" }
      (fun _ => FetchOutcome.netFail "down") [] 0 "rt" (TargetScopes.one "sc")).1
    azureNotConfiguredMessage (by decide)).1

/-- A false `isAzureOBOConfigured` is exactly one of the three credentials
being empty. -/
theorem isAzureOBOConfigured_false_iff (cfg : AzureAdConfig) :
    isAzureOBOConfigured cfg = false ↔
      (cfg.clientId = "" ∨ cfg.clientSecret = "" ∨ cfg.tenantId = "") := by
  unfold isAzureOBOConfigured
  by_cases h1 : cfg.clientId = "" <;> by_cases h2 : cfg.clientSecret = "" <;>
    by_cases h3 : cfg.tenantId = "" <;> simp [h1, h2, h3]

/-- Without configuration no broker operation ever populates the cache, so
every reachable cache state is the empty one. -/
theorem reachable_not_configured_cache_empty
    (cfg : AzureAdConfig)
    (hcfg : cfg.clientId = "" ∨ cfg.clientSecret = "" ∨ cfg.tenantId = "") :
    ∀ cache, ReachableCache cfg cache → cache = [] := by
  intro cache hreach
  induction hreach with
  | init => rfl
  | step cache2 op h ih =>
    subst ih
    cases op with
    | silentOp net now refreshToken ts =>
      show (acquireTokenSilent cfg net [] now refreshToken ts).cache = []
      rw [acquireTokenSilent_miss_notconf cfg net [] now refreshToken ts rfl hcfg]
    | oboOp net now userToken ts =>
      show (exchangeTokenOBO cfg net [] now userToken ts).cache = []
      rw [exchangeTokenOBO_miss_notconf cfg net [] now userToken ts rfl hcfg]
    | downstreamOp net now refreshToken ts =>
      show (acquireDownstreamToken cfg net [] now refreshToken ts).cache = []
      simp only [acquireDownstreamToken]
      rw [acquireTokenSilent_miss_notconf cfg net [] now refreshToken
        (TargetScopes.one (OUR_APP_SCOPE cfg)) rfl hcfg]

/-- C5: whenever any of the client id, client secret, or tenant id is empty,
both `acquireTokenSilent` and `exchangeTokenOBO` return the not-configured
error immediately, issue no request to the token endpoint, and leave the
cache untouched — in every cache state the process can reach. -/
theorem broker_not_configured_immediate_error
    (cfg : AzureAdConfig) (cache : TokenCache)
    (hcfg : isAzureOBOConfigured cfg = false)
    (hreach : ReachableCache cfg cache)
    (net : TokenRequest → FetchOutcome) (now : Nat) (refreshToken userToken : String)
    (ts : TargetScopes) :
    acquireTokenSilent cfg net cache now refreshToken ts
      = { result := AzureTokenResult.err azureNotConfiguredMessage, cache := cache,
          requests := [] } ∧
    exchangeTokenOBO cfg net cache now userToken ts
      = { result := AzureTokenResult.err azureNotConfiguredMessage, cache := cache,
          requests := [] } := by
  have hdis := (isAzureOBOConfigured_false_iff cfg).mp hcfg
  have hempty := reachable_not_configured_cache_empty cfg hdis cache hreach
  subst hempty
  exact ⟨acquireTokenSilent_miss_notconf cfg net [] now refreshToken ts rfl hdis,
         exchangeTokenOBO_miss_notconf cfg net [] now userToken ts rfl hdis⟩

/-- Witness for C5: an empty client id disables both operations at the
initial (empty) cache. -/
theorem broker_not_configured_immediate_error_witness :
    acquireTokenSilent { clientId := "", clientSecret := "s", tenantId := "t" }
        (fun _ => FetchOutcome.success (some "T") (some 3600)) [] 0 "rt" (TargetScopes.one "sc")
      = { result := AzureTokenResult.err azureNotConfiguredMessage, cache := [],
          requests := [] } ∧
    exchangeTokenOBO { clientId := "", clientSecret := "s", tenantId := "t" }
        (fun _ => FetchOutcome.success (some "T") (some 3600)) [] 0 "ut" (TargetScopes.one "sc")
      = { result := AzureTokenResult.err azureNotConfiguredMessage, cache := [],
          requests := [] } :=
  broker_not_configured_immediate_error
    { clientId := "", clientSecret := "s", tenantId := "t" } [] (by decide)
    ReachableCache.init (fun _ => FetchOutcome.success (some "T") (some 3600)) 0 "rt" "ut"
    (TargetScopes.one "sc")

/-- C1 (spec-modelled authorizer): in token mode with an OIDC verifier
supplied and an oidcToken presented (and no identity-proxy identity), a
failed OIDC verification falls through to the static-token check, which
accepts the matching token with method "token"; a successful OIDC
verification is evaluated first and wins with method "oidc" even when the
presented static token is wrong. -/
theorem authorizeGatewayConnect_oidc_precedence
    (auth : GatewayAuthConfig) (v : String → OidcVerifyResult) (jwt tok : String)
    (hmode : auth.mode = "token") (htok : auth.token = some tok) :
    (∀ r (pw : Option String), v jwt = OidcVerifyResult.err r →
      authorizeGatewayConnect auth
          (some { token := some tok, password := pw, oidcToken := some jwt }) none (some v)
        = GatewayAuthResult.accepted "token" none) ∧
    (∀ user claims (presented pw : Option String), v jwt = OidcVerifyResult.ok user claims →
      authorizeGatewayConnect auth
          (some { token := presented, password := pw, oidcToken := some jwt }) none (some v)
        = GatewayAuthResult.accepted "oidc" (some user)) := by
  constructor
  · intro r pw hv
    simp [authorizeGatewayConnect, gatewayModeCheck, hv, hmode, htok]
  · intro user claims presented pw hv
    simp [authorizeGatewayConnect, hv]

/-- Witness for C1: both precedence outcomes at concrete inputs, mirroring
the gateway auth test suite. -/
theorem authorizeGatewayConnect_oidc_precedence_witness :
    authorizeGatewayConnect
        { mode := "token", token := some "secret", password := none, allowTailscale := false }
        (some { token := some "secret", password := none, oidcToken := some "bad-jwt" }) none
        (some (fun _ => OidcVerifyResult.err "oidc_token_invalid"))
      = GatewayAuthResult.accepted "token" none ∧
    authorizeGatewayConnect
        { mode := "token", token := some "secret", password := none, allowTailscale := false }
        (some { token := some "wrong-token", password := none, oidcToken := some "good-jwt" })
        none (some (fun _ => OidcVerifyResult.ok "oidc-user" []))
      = GatewayAuthResult.accepted "oidc" (some "oidc-user") :=
  ⟨(authorizeGatewayConnect_oidc_precedence
      { mode := "token", token := some "secret", password := none, allowTailscale := false }
      (fun _ => OidcVerifyResult.err "oidc_token_invalid") "bad-jwt" "secret" rfl rfl).1
    "oidc_token_invalid" none rfl,
   (authorizeGatewayConnect_oidc_precedence
      { mode := "token", token := some "secret", password := none, allowTailscale := false }
      (fun _ => OidcVerifyResult.ok "oidc-user" []) "good-jwt" "secret" rfl rfl).2
    "oidc-user" [] (some "wrong-token") none rfl⟩

end OpenClaw
